import Mathlib

/-!
Shallow embedding of the mantra_recitation core services
(`src/services/mantraService.ts`, `src/services/syncQueueService.ts`,
`src/lib/api.ts`, `src/types/index.ts`).

Browser storage is modelled as typed state records (the spec treats it as a
key-value primitive with get/set/remove; JSON round-trips are identities on
well-formed values, and a corrupt stored value is modelled as `.error ()`).
Timestamps are epoch milliseconds as `Nat`.  Fallible asynchronous calls are
modelled by passing their outcome (`Except Unit _`) as a parameter: `.error`
stands for a thrown error or rejected promise.
-/

namespace MantraRec

/-- Provenance tag of a catalog entry: the `source` field of `Mantra` in
`mantraService.ts` (`'core' | 'user' | 'pending'`). -/
inductive Source where
  | core
  | user
  | pending
deriving DecidableEq, Repr

/-- The `Mantra` record of `mantraService.ts`.  Optional TS fields become
`Option`; `submittedAt : Date` becomes an epoch-millis `Nat`. -/
structure Mantra where
  id : String
  name : String
  sanskrit : Option String := none
  gurmukhi : Option String := none
  translation : Option String := none
  category : Option String := none
  traditionalCount : Option Nat := none
  audioUrl : Option String := none
  source : Source
  submittedBy : Option String := none
  submittedAt : Option Nat := none
  optimalTime : Option String := none
  optionality : Option String := none
  targetRecitations : Option Nat := none
  guruAuthorship : Option String := none
  guruNumber : Option Nat := none
  significance : Option String := none
deriving DecidableEq, Repr

/-- The `sikthCounts` table inside `getDefaultCount`. -/
def sikthCounts : List (String × Nat) :=
  [("Daily Banis", 1),
   ("Core Mantras", 125000),
   ("Paurees", 11),
   ("Simran", 125000),
   ("Devotion", 108),
   ("Wisdom", 108),
   ("Compassion", 108),
   ("Peace", 108),
   ("Healing", 108),
   ("Protection", 108),
   ("Prosperity", 108),
   ("Self-realization", 108),
   ("Other", 108)]

/-- `getDefaultCount(category?)`.  The JS expression
`sikthCounts[category] || 108` falls back to 108 both when the key is absent
and when the stored value is falsy (0). -/
def getDefaultCount : Option String → Nat
  | none => 108
  | some c =>
    match sikthCounts.lookup c with
    | some n => if n ≠ 0 then n else 108
    | none => 108

/-- Backend mantra shape from `src/lib/api.ts` (items of `GET /mantras`). -/
structure ApiMantra where
  id : String
  name : String
  category : String
  text : String
  language : String
deriving DecidableEq, Repr

/-- `getBackendMantras`: maps each backend record (`text` lands in
`gurmukhi`, `traditionalCount` from the category table); any thrown error is
caught and degrades to `[]`. -/
def getBackendMantras (resp : Except Unit (List ApiMantra)) : List Mantra :=
  match resp with
  | .error _ => []
  | .ok data =>
    data.map fun m =>
      { id := m.id
        name := m.name
        gurmukhi := some m.text
        category := some m.category
        source := Source.core
        traditionalCount := some (getDefaultCount (some m.category)) }

/-- Fields of one Airtable record, as read by `getCoreMantras`. -/
structure AirtableRecord where
  id : String
  name : String
  sanskrit : Option String := none
  gurmukhi : Option String := none
  translation : Option String := none
  category : Option String := none
  traditionalCount : Option Nat := none
  audioUrl : Option String := none
deriving DecidableEq, Repr

/-- The per-record mapping inside `getCoreMantras`; the JS expression
`record.fields['Traditional Count'] || getDefaultCount(...)` takes the
default when the field is absent or falsy (0). -/
def airtableToMantra (r : AirtableRecord) : Mantra :=
  { id := r.id
    name := r.name
    sanskrit := r.sanskrit
    gurmukhi := r.gurmukhi
    translation := r.translation
    category := r.category
    traditionalCount := some
      (match r.traditionalCount with
       | some n => if n ≠ 0 then n else getDefaultCount r.category
       | none => getDefaultCount r.category)
    audioUrl := r.audioUrl
    source := Source.core }

/-- A persisted provider cache value: `{ data, timestamp }`. -/
structure CacheEntry where
  data : List Mantra
  timestamp : Nat
deriving DecidableEq, Repr

/-- The localStorage slice owned by `MantraService`: the two provider cache
keys and the `userMantras` key.  `userStore = .error ()` models a stored
value that fails to parse. -/
structure MSState where
  coreCache : Option CacheEntry := none
  sheetsCache : Option CacheEntry := none
  userStore : Except Unit (List Mantra) := .ok []
deriving Repr

/-- Environment of one service call: configuration presence, the clock and
the outcome each underlying fetch would produce if consulted. -/
structure MSEnv where
  googleSheetEnabled : Bool
  airtableConfigured : Bool
  now : Nat
  backendFetch : Except Unit (List ApiMantra)
  airtableFetch : Except Unit (List AirtableRecord)
  sheetsFetch : Except Unit (List Mantra)

/-- `cacheExpiry = 24 * 60 * 60 * 1000` (24 hours in milliseconds). -/
def cacheExpiry : Nat := 24 * 60 * 60 * 1000

/-- `getCachedCoreMantras`: freshness is evaluated at read time
(`Date.now() - timestamp > cacheExpiry`), and a stale entry is evicted. -/
def getCachedCoreMantras (s : MSState) (now : Nat) :
    Option (List Mantra) × MSState :=
  match s.coreCache with
  | none => (none, s)
  | some e =>
    if now - e.timestamp > cacheExpiry then
      (none, { s with coreCache := none })
    else
      (some e.data, s)

/-- `getCachedGoogleSheetsMantras`: same shape as the core cache read. -/
def getCachedGoogleSheetsMantras (s : MSState) (now : Nat) :
    Option (List Mantra) × MSState :=
  match s.sheetsCache with
  | none => (none, s)
  | some e =>
    if now - e.timestamp > cacheExpiry then
      (none, { s with sheetsCache := none })
    else
      (some e.data, s)

/-- `getDefaultCoreMantras()` returns the empty list. -/
def getDefaultCoreMantras : List Mantra := []

/-- `getCoreMantras`: cached value if fresh; otherwise, with Airtable
unconfigured, the default (empty) list; otherwise the fetch, whose success
is cached with the current timestamp and whose failure (thrown or non-ok
response) is caught and degrades to the default list. -/
def getCoreMantras (env : MSEnv) (s : MSState) : List Mantra × MSState :=
  match (getCachedCoreMantras s env.now).1 with
  | some cached => (cached, (getCachedCoreMantras s env.now).2)
  | none =>
    if env.airtableConfigured then
      match env.airtableFetch with
      | .ok records =>
        let mantras := records.map airtableToMantra
        (mantras,
          { (getCachedCoreMantras s env.now).2 with
              coreCache := some ⟨mantras, env.now⟩ })
      | .error _ => (getDefaultCoreMantras, (getCachedCoreMantras s env.now).2)
    else
      (getDefaultCoreMantras, (getCachedCoreMantras s env.now).2)

/-- `getGoogleSheetsMantras`: `[]` when the feature toggle is off; cached
value if fresh; otherwise the fetch, caching success with the current
timestamp and catching failure to `[]`. -/
def getGoogleSheetsMantras (env : MSEnv) (s : MSState) :
    List Mantra × MSState :=
  if env.googleSheetEnabled then
    match (getCachedGoogleSheetsMantras s env.now).1 with
    | some cached => (cached, (getCachedGoogleSheetsMantras s env.now).2)
    | none =>
      match env.sheetsFetch with
      | .ok mantras =>
        (mantras,
          { (getCachedGoogleSheetsMantras s env.now).2 with
              sheetsCache := some ⟨mantras, env.now⟩ })
      | .error _ => ([], (getCachedGoogleSheetsMantras s env.now).2)
  else
    ([], s)

/-- `getUserMantras`: reads the `userMantras` key; a parse failure is caught
and degrades to `[]`. -/
def getUserMantras (s : MSState) : List Mantra :=
  match s.userStore with
  | .error _ => []
  | .ok xs => xs

/-- Little-endian decimal digit characters of `n`, computed with explicit
fuel (structural recursion, so concrete values reduce in the kernel).  With
`fuel ≥ n` this is the full digit list of `n`. -/
def natDecDigitsCore : Nat → Nat → List Char
  | 0, _ => []
  | fuel + 1, n =>
    if n = 0 then []
    else Nat.digitChar (n % 10) :: natDecDigitsCore fuel (n / 10)

/-- Decimal rendering of a nonnegative integer, modelling the JS template
conversion `${Date.now()}` (JS renders integral Numbers in decimal). -/
def jsNatRepr (n : Nat) : String :=
  if n = 0 then "0" else ⟨(natDecDigitsCore n n).reverse⟩

/-- The synthetic sentinel entry always appended by `getAllMantras`. -/
def customMantra : Mantra := { id := "custom", name := "Custom", source := Source.core }

/-- `getAllMantras`: fans out to the adapters (backend and Airtable are
skipped when the Google-Sheets toggle is on), concatenates in provider
order and appends the `custom` sentinel.  The adapters touch disjoint
storage keys, so threading the state sequentially coincides with the
concurrent `Promise.all` of the source. -/
def getAllMantras (env : MSEnv) (s : MSState) : List Mantra × MSState :=
  let backendMantras :=
    if env.googleSheetEnabled then [] else getBackendMantras env.backendFetch
  let coreStep :=
    if env.googleSheetEnabled then (([], s) : List Mantra × MSState)
    else getCoreMantras env s
  let sheetsStep := getGoogleSheetsMantras env coreStep.2
  let userMantras := getUserMantras sheetsStep.2
  (backendMantras ++ coreStep.1 ++ sheetsStep.1 ++ userMantras ++ [customMantra],
    sheetsStep.2)

/-- `addUserMantra`: stamps a fresh id `"user-" + Date.now()`, provenance
`user`, submission timestamp now; appends to the user store and rewrites the
whole collection. -/
def addUserMantra (m : Mantra) (now : Nat) (s : MSState) : Mantra × MSState :=
  let newMantra : Mantra :=
    { m with
        id := "user-" ++ jsNatRepr now
        source := Source.user
        submittedAt := some now }
  let userMantras := getUserMantras s
  (newMantra, { s with userStore := .ok (userMantras ++ [newMantra]) })

/-- `deleteUserMantra`: filters out every entry with the given id; rewrites
the store and returns true only when the filtered list got shorter. -/
def deleteUserMantra (id : String) (s : MSState) : Bool × MSState :=
  let userMantras := getUserMantras s
  let filtered := userMantras.filter fun m => m.id ≠ id
  if filtered.length ≠ userMantras.length then
    (true, { s with userStore := .ok filtered })
  else
    (false, s)

/-- Recitation payload, `Omit<MantraRecitation, 'id'>` from
`src/types/index.ts`. -/
structure RecitationPayload where
  mantraName : String
  count : Nat
  duration : Option Nat := none
  timestamp : Option Nat := none
  notes : Option String := none
deriving DecidableEq, Repr

/-- `QueuedRecitation` from `syncQueueService.ts`. -/
structure QueuedRecitation where
  id : String
  recitation : RecitationPayload
  timestamp : Nat
  retries : Nat
deriving DecidableEq, Repr

/-- `SyncStatus` from `syncQueueService.ts`. -/
structure SyncStatus where
  pending : Nat
  syncing : Bool
  lastSyncAttempt : Option Nat
  lastSuccessfulSync : Option Nat
deriving DecidableEq, Repr

/-- The default status returned by `getStatus` when nothing is stored. -/
def initialStatus : SyncStatus :=
  { pending := 0, syncing := false, lastSyncAttempt := none, lastSuccessfulSync := none }

/-- The localStorage slice owned by `SyncQueueService` (`syncQueue` and
`syncStatus` keys) plus the stream of status values handed to
`notifyListeners`, most recent last. -/
structure SQState where
  queue : List QueuedRecitation := []
  status : SyncStatus := initialStatus
  broadcasts : List SyncStatus := []
deriving DecidableEq, Repr

/-- A partial status record, as passed to `updateStatus(updates)`; a `none`
field is absent from the JS object literal. -/
structure StatusUpdates where
  pending : Option Nat := none
  syncing : Option Bool := none
  lastSyncAttempt : Option (Option Nat) := none
  lastSuccessfulSync : Option (Option Nat) := none

/-- `maxRetries = 5`. -/
def maxRetries : Nat := 5

/-- `updateStatus`: builds `{...currentStatus, pending: queue.length,
...updates}`, persists it and notifies every listener with that same
value. -/
def updateStatus (u : StatusUpdates) (s : SQState) : SQState :=
  let newStatus : SyncStatus :=
    { pending := u.pending.getD s.queue.length
      syncing := u.syncing.getD s.status.syncing
      lastSyncAttempt := u.lastSyncAttempt.getD s.status.lastSyncAttempt
      lastSuccessfulSync := u.lastSuccessfulSync.getD s.status.lastSuccessfulSync }
  { s with status := newStatus, broadcasts := s.broadcasts ++ [newStatus] }

/-- `queueRecitation`: appends a fresh item with `retries = 0`, persists the
queue, recomputes and broadcasts status, returns the generated id.  `rand`
stands for the `Math.random().toString(36).substr(2, 9)` suffix. -/
def queueRecitation (recitation : RecitationPayload) (now : Nat) (rand : String)
    (s : SQState) : String × SQState :=
  let queuedItem : QueuedRecitation :=
    { id := "queued-" ++ jsNatRepr now ++ "-" ++ rand
      recitation := recitation
      timestamp := now
      retries := 0 }
  let s1 := { s with queue := s.queue ++ [queuedItem] }
  (queuedItem.id, updateStatus {} s1)

/-- One iteration of the `syncQueue` drain loop over a single item.
`deliver item = true` is the `saveRecitation` success path (item dropped);
`false` covers both a `false` return and a thrown error, which land in the
same catch: the retry counter is bumped and the item is kept only while
still under `maxRetries`. -/
def processItem (deliver : QueuedRecitation → Bool) (item : QueuedRecitation) :
    Option QueuedRecitation :=
  if deliver item then none
  else
    let item1 := { item with retries := item.retries + 1 }
    if item1.retries < maxRetries then some item1 else none

/-- The `failedQueue` accumulated by the `syncQueue` drain loop. -/
def processQueue (deliver : QueuedRecitation → Bool)
    (queue : List QueuedRecitation) : List QueuedRecitation :=
  queue.filterMap (processItem deliver)

/-- `syncQueue`: no-op on an empty queue; on a failed health probe records
only the attempt timestamp; otherwise marks syncing, drains every item,
persists the retained set as the new queue, and finishes with
`syncing = false` and `lastSuccessfulSync = now` exactly when the retained
set is empty.  `backendAvailable` is the `testConnection()` outcome,
`deliver` the per-item delivery outcome, `tAttempt`/`tEnd` the two
`Date.now()` reads. -/
def syncQueue (backendAvailable : Bool) (deliver : QueuedRecitation → Bool)
    (tAttempt tEnd : Nat) (s : SQState) : SQState :=
  if s.queue.length = 0 then s
  else if ¬backendAvailable then
    updateStatus { lastSyncAttempt := some (some tAttempt) } s
  else
    let s1 := updateStatus { syncing := some true, lastSyncAttempt := some (some tAttempt) } s
    let failedQueue := processQueue deliver s1.queue
    let s2 := { s1 with queue := failedQueue }
    let allSynced := failedQueue.length = 0
    updateStatus
      { syncing := some false
        lastSuccessfulSync :=
          some (if allSynced then some tEnd else s2.status.lastSuccessfulSync) }
      s2

/-- `clearQueue`: removes the queue key and broadcasts a status with
`pending = 0`. -/
def clearQueue (s : SQState) : SQState :=
  updateStatus { pending := some 0 } { s with queue := [] }

/-! ### Helper lemmas -/

/-- `Nat.digitChar` is injective below 10. -/
lemma digitChar_inj_lt {x y : Nat} (hx : x < 10) (hy : y < 10)
    (h : Nat.digitChar x = Nat.digitChar y) : x = y := by
  have key : ∀ a b : Fin 10, Nat.digitChar a.val = Nat.digitChar b.val → a = b := by decide
  exact congrArg Fin.val (key ⟨x, hx⟩ ⟨y, hy⟩ h)

/-- With sufficient fuel, only 0 renders to the empty digit list. -/
lemma natDecDigitsCore_eq_nil {g b : Nat} (hb : b ≤ g)
    (h : natDecDigitsCore g b = []) : b = 0 := by
  cases g with
  | zero => omega
  | succ g' =>
    by_cases hb0 : b = 0
    · exact hb0
    · simp [natDecDigitsCore, hb0] at h

/-- With sufficient fuel on both sides, equal digit lists force equal
numbers. -/
lemma natDecDigitsCore_inj : ∀ (f : Nat) {g a b : Nat}, a ≤ f → b ≤ g →
    natDecDigitsCore f a = natDecDigitsCore g b → a = b := by
  intro f
  induction f with
  | zero =>
    intro g a b ha hb h
    have ha0 : a = 0 := by omega
    subst ha0
    simp [natDecDigitsCore] at h
    exact (natDecDigitsCore_eq_nil hb h).symm
  | succ f ih =>
    intro g a b ha hb h
    by_cases ha0 : a = 0
    · subst ha0
      simp [natDecDigitsCore] at h
      exact (natDecDigitsCore_eq_nil hb h).symm
    · have hb0 : b ≠ 0 := by
        intro hb0
        subst hb0
        have hnil : natDecDigitsCore g 0 = [] := by
          cases g <;> simp [natDecDigitsCore]
        rw [hnil] at h
        simp [natDecDigitsCore, ha0] at h
      cases g with
      | zero => omega
      | succ g' =>
        simp only [natDecDigitsCore, ha0, hb0, if_false, List.cons.injEq] at h
        obtain ⟨h1, h2⟩ := h
        have hm : a % 10 = b % 10 :=
          digitChar_inj_lt (Nat.mod_lt _ (by omega)) (Nat.mod_lt _ (by omega)) h1
        have hdiv : a / 10 = b / 10 := ih (by omega) (by omega) h2
        omega

/-- The decimal rendering of epoch-millis values is injective. -/
lemma jsNatRepr_inj {a b : Nat} (h : jsNatRepr a = jsNatRepr b) : a = b := by
  have key : ∀ c : Nat, c ≠ 0 → jsNatRepr c ≠ "0" := by
    intro c hc heq
    rw [jsNatRepr, if_neg hc,
      show ("0" : String) = ⟨['0']⟩ from rfl] at heq
    injection heq with hd
    have hrev : natDecDigitsCore c c = ['0'] := by
      have := congrArg List.reverse hd
      simpa using this
    obtain ⟨k, rfl⟩ : ∃ k, c = k + 1 := ⟨c - 1, by omega⟩
    simp only [natDecDigitsCore, Nat.succ_ne_zero, if_false, List.cons.injEq] at hrev
    obtain ⟨h1, h2⟩ := hrev
    have hdiv : (k + 1) / 10 = 0 := natDecDigitsCore_eq_nil (by omega) h2
    have hmod : (k + 1) % 10 = 0 :=
      digitChar_inj_lt (Nat.mod_lt _ (by omega)) (by omega) h1
    omega
  by_cases ha : a = 0 <;> by_cases hb : b = 0
  · omega
  · subst ha
    exact absurd h.symm (by simpa [jsNatRepr] using key b hb)
  · subst hb
    exact absurd h (by simpa [jsNatRepr] using key a ha)
  · rw [jsNatRepr, if_neg ha, jsNatRepr, if_neg hb] at h
    injection h with hd
    exact natDecDigitsCore_inj a (le_refl a) (le_refl b) (List.reverse_injective hd)

/-- The generated user id is injective in the timestamp. -/
lemma userId_inj {a b : Nat} (h : "user-" ++ jsNatRepr a = "user-" ++ jsNatRepr b) :
    a = b := by
  apply jsNatRepr_inj
  apply String.ext
  have := congrArg String.data h
  rw [String.data_append, String.data_append] at this
  exact List.append_cancel_left this

/-- A core-cache read never touches the sheets cache or the user store. -/
lemma getCachedCoreMantras_frame (s : MSState) (now : Nat) :
    ((getCachedCoreMantras s now).2).sheetsCache = s.sheetsCache ∧
    ((getCachedCoreMantras s now).2).userStore = s.userStore := by
  unfold getCachedCoreMantras
  cases hc : s.coreCache with
  | none => simp
  | some e =>
    dsimp only
    split <;> simp

/-- A sheets-cache read never touches the core cache or the user store. -/
lemma getCachedGoogleSheetsMantras_frame (s : MSState) (now : Nat) :
    ((getCachedGoogleSheetsMantras s now).2).coreCache = s.coreCache ∧
    ((getCachedGoogleSheetsMantras s now).2).userStore = s.userStore := by
  unfold getCachedGoogleSheetsMantras
  cases hc : s.sheetsCache with
  | none => simp
  | some e =>
    dsimp only
    split <;> simp

/-- The core adapter only writes its own cache key. -/
lemma getCoreMantras_frame (env : MSEnv) (s : MSState) :
    ((getCoreMantras env s).2).sheetsCache = s.sheetsCache ∧
    ((getCoreMantras env s).2).userStore = s.userStore := by
  have h := getCachedCoreMantras_frame s env.now
  unfold getCoreMantras
  cases hr : (getCachedCoreMantras s env.now).1 with
  | some c => simpa using h
  | none =>
    by_cases hcfg : env.airtableConfigured <;>
      cases hf : env.airtableFetch <;>
        simp only [hcfg, hf] <;>
          simpa using h

/-- The sheets adapter never touches the user store. -/
lemma getGoogleSheetsMantras_frame (env : MSEnv) (s : MSState) :
    ((getGoogleSheetsMantras env s).2).userStore = s.userStore := by
  have h := getCachedGoogleSheetsMantras_frame s env.now
  unfold getGoogleSheetsMantras
  by_cases hg : env.googleSheetEnabled
  · cases hr : (getCachedGoogleSheetsMantras s env.now).1 with
    | some c => simp only [hg]; simpa using h.2
    | none =>
      cases hf : env.sheetsFetch <;>
        simp only [hg, hf] <;>
          simpa using h.2
  · simp [hg]

/-- The user store read depends only on the user store key. -/
lemma getUserMantras_congr {s t : MSState} (h : s.userStore = t.userStore) :
    getUserMantras s = getUserMantras t := by
  unfold getUserMantras
  rw [h]

/-- The aggregated catalog decomposes provider by provider against the
initial state: the adapters read and write disjoint storage keys. -/
lemma getAllMantras_fst (env : MSEnv) (s : MSState) :
    (getAllMantras env s).1 =
      (if env.googleSheetEnabled then [] else getBackendMantras env.backendFetch) ++
      (if env.googleSheetEnabled then [] else (getCoreMantras env s).1) ++
      (getGoogleSheetsMantras env s).1 ++
      getUserMantras s ++ [customMantra] := by
  by_cases hg : env.googleSheetEnabled
  · simp only [getAllMantras, hg, if_true]
    rw [getUserMantras_congr (getGoogleSheetsMantras_frame env s)]
  · have hoff : ∀ t : MSState, getGoogleSheetsMantras env t = ([], t) := by
      intro t
      unfold getGoogleSheetsMantras
      rw [if_neg hg]
    simp only [getAllMantras, hg, Bool.false_eq_true, if_false, hoff]
    rw [getUserMantras_congr (getCoreMantras_frame env s).2]

/-! ### Claim theorems -/

/-- C1: every provider adapter fails open.  If an adapter's underlying fetch
throws or rejects (and no fresh cache entry preempts the fetch), that
adapter yields the empty sequence — no exception escapes, as each adapter is
a total function into a plain list — and `getAllMantras` still returns the
remaining providers' entries, in provider order, followed by the `custom`
sentinel. -/
theorem c1_adapters_fail_open (env : MSEnv) (s : MSState) :
    (env.backendFetch = .error () → getBackendMantras env.backendFetch = []) ∧
    ((getCachedCoreMantras s env.now).1 = none → env.airtableFetch = .error () →
      (getCoreMantras env s).1 = []) ∧
    ((getCachedGoogleSheetsMantras s env.now).1 = none → env.sheetsFetch = .error () →
      (getGoogleSheetsMantras env s).1 = []) ∧
    (s.userStore = .error () → getUserMantras s = []) ∧
    (getAllMantras env s).1 =
      (if env.googleSheetEnabled then [] else getBackendMantras env.backendFetch) ++
      (if env.googleSheetEnabled then [] else (getCoreMantras env s).1) ++
      (getGoogleSheetsMantras env s).1 ++
      getUserMantras s ++ [customMantra] := by
  refine ⟨?_, ?_, ?_, ?_, getAllMantras_fst env s⟩
  · intro h
    rw [h]
    rfl
  · intro hmiss herr
    by_cases hcfg : env.airtableConfigured <;>
      simp [getCoreMantras, hmiss, herr, hcfg, getDefaultCoreMantras]
  · intro hmiss herr
    by_cases hg : env.googleSheetEnabled <;>
      simp [getGoogleSheetsMantras, hmiss, herr, hg]
  · intro h
    simp [getUserMantras, h]

/-- Environment in which every underlying fetch fails. -/
def envFailAll : MSEnv :=
  { googleSheetEnabled := true
    airtableConfigured := false
    now := 0
    backendFetch := .error ()
    airtableFetch := .error ()
    sheetsFetch := .error () }

/-- Storage state with cold caches and a corrupt user store. -/
def stateFailAll : MSState :=
  { coreCache := none, sheetsCache := none, userStore := .error () }

/-- Witness for C1: with every fetch failing and the user store corrupt, each
adapter yields `[]` and the catalog is exactly the `custom` sentinel. -/
theorem c1_adapters_fail_open_witness :
    getBackendMantras envFailAll.backendFetch = [] ∧
    (getCoreMantras envFailAll stateFailAll).1 = [] ∧
    (getGoogleSheetsMantras envFailAll stateFailAll).1 = [] ∧
    getUserMantras stateFailAll = [] ∧
    (getAllMantras envFailAll stateFailAll).1 = [customMantra] := by
  obtain ⟨h1, h2, h3, h4, h5⟩ := c1_adapters_fail_open envFailAll stateFailAll
  exact ⟨h1 rfl, h2 rfl rfl, h3 rfl rfl, h4 rfl, by rw [h5]; rfl⟩

/-- Environment of the concrete scenario of C6: sheets disabled, Airtable
unconfigured, backend returning one record. -/
def envScenario : MSEnv :=
  { googleSheetEnabled := false
    airtableConfigured := false
    now := 0
    backendFetch := .ok
      [{ id := "m1", name := "Om", category := "Devotion", text := "...",
         language := "sa" }]
    airtableFetch := .ok []
    sheetsFetch := .ok [] }

/-- The single user-submitted entry of the C6 scenario. -/
def userScenarioEntry : Mantra :=
  { id := "user-1", name := "My Mantra", source := Source.user }

/-- Storage state of the C6 scenario. -/
def stateScenario : MSState :=
  { coreCache := none, sheetsCache := none, userStore := .ok [userScenarioEntry] }

/-- C6: with the remote API returning exactly one record, the spreadsheet
provider disabled, and one user entry named "My Mantra", the catalog has
exactly three entries in order remote (text mapped into `gurmukhi`, default
count 108, provenance core), user (provenance user), and the `custom`
sentinel (provenance core) last. -/
theorem c6_concrete_scenario :
    (getAllMantras envScenario stateScenario).1 =
      [{ id := "m1", name := "Om", gurmukhi := some "...",
         category := some "Devotion", traditionalCount := some 108,
         source := Source.core },
       userScenarioEntry, customMantra] ∧
    userScenarioEntry.source = Source.user ∧
    customMantra.source = Source.core ∧
    customMantra.id = "custom" := by decide

/-- C8: the default target count follows the category table — Daily Banis 1,
Core Mantras 125000, Paurees 11, Simran 125000, every other named category
108, and an absent category 108. -/
theorem c8_default_count_table :
    getDefaultCount (some "Daily Banis") = 1 ∧
    getDefaultCount (some "Core Mantras") = 125000 ∧
    getDefaultCount (some "Paurees") = 11 ∧
    getDefaultCount (some "Simran") = 125000 ∧
    getDefaultCount none = 108 ∧
    ∀ c : String, c ≠ "Daily Banis" → c ≠ "Core Mantras" → c ≠ "Paurees" →
      c ≠ "Simran" → getDefaultCount (some c) = 108 := by
  refine ⟨by decide, by decide, by decide, by decide, rfl, ?_⟩
  intro c h1 h2 h3 h4
  have e1 : (c == "Daily Banis") = false := by simpa using h1
  have e2 : (c == "Core Mantras") = false := by simpa using h2
  have e3 : (c == "Paurees") = false := by simpa using h3
  have e4 : (c == "Simran") = false := by simpa using h4
  simp only [getDefaultCount, sikthCounts, List.lookup, e1, e2, e3, e4]
  split
  case _ n heq =>
    repeat' split at heq <;> simp_all
  case _ => rfl

/-- Witness for C8: the table evaluated at a listed category, an in-table
108 category and an unknown one. -/
theorem c8_default_count_table_witness :
    getDefaultCount (some "Daily Banis") = 1 ∧
    getDefaultCount (some "Devotion") = 108 ∧
    getDefaultCount (some "Unknown Category") = 108 := by
  obtain ⟨hd, -, -, -, -, hrest⟩ := c8_default_count_table
  exact ⟨hd, hrest "Devotion" (by decide) (by decide) (by decide) (by decide),
    hrest "Unknown Category" (by decide) (by decide) (by decide) (by decide)⟩

/-- A catalog entry used to probe the caches. -/
def cacheProbeEntry : Mantra := { id := "a", name := "A", source := Source.core }

/-- A core cache written at time 0, probed at exactly the 24h boundary. -/
def stateAtBoundary : MSState :=
  { coreCache := some { data := [cacheProbeEntry], timestamp := 0 },
    sheetsCache := none, userStore := .ok [] }

/-- C5 counterexample: at `now − timestamp` exactly 24h (≥ 24h as the claim
requires), the read still returns the cached data and keeps the stored key —
the code evicts only on a strictly greater age — so the claim as stated
fails at this input. -/
theorem c5_cache_boundary_counterexample :
    cacheExpiry ≤ 86400000 - 0 ∧
    (getCachedCoreMantras stateAtBoundary 86400000).1 = some [cacheProbeEntry] ∧
    ((getCachedCoreMantras stateAtBoundary 86400000).2).coreCache =
      some { data := [cacheProbeEntry], timestamp := 0 } := by
  refine ⟨by decide, rfl, rfl⟩

/-- C5 amended: for both provider caches, an entry written at `t` and read
at `now` yields the identical sequence with the state untouched while
`now − t ≤ 24h`, and as-if-absent with the stored key removed when
`now − t > 24h` (the boundary itself counts as fresh). -/
theorem c5_cache_roundtrip (data : List Mantra) (t now : Nat) (s : MSState) :
    (s.coreCache = some { data := data, timestamp := t } →
      (now - t ≤ cacheExpiry →
        getCachedCoreMantras s now = (some data, s)) ∧
      (cacheExpiry < now - t →
        getCachedCoreMantras s now = (none, { s with coreCache := none }))) ∧
    (s.sheetsCache = some { data := data, timestamp := t } →
      (now - t ≤ cacheExpiry →
        getCachedGoogleSheetsMantras s now = (some data, s)) ∧
      (cacheExpiry < now - t →
        getCachedGoogleSheetsMantras s now = (none, { s with sheetsCache := none }))) := by
  constructor
  · intro hc
    constructor
    · intro hfresh
      unfold getCachedCoreMantras
      rw [hc]
      simp only []
      rw [if_neg (by omega)]
    · intro hstale
      unfold getCachedCoreMantras
      rw [hc]
      simp only []
      rw [if_pos (by omega)]
  · intro hc
    constructor
    · intro hfresh
      unfold getCachedGoogleSheetsMantras
      rw [hc]
      simp only []
      rw [if_neg (by omega)]
    · intro hstale
      unfold getCachedGoogleSheetsMantras
      rw [hc]
      simp only []
      rw [if_pos (by omega)]

/-- Both caches written at time 100, for the C5 witness. -/
def freshCacheState : MSState :=
  { coreCache := some { data := [cacheProbeEntry], timestamp := 100 },
    sheetsCache := some { data := [cacheProbeEntry], timestamp := 100 },
    userStore := .ok [] }

/-- Witness for C5 amended: a fresh read returns the data, a stale read
evicts. -/
theorem c5_cache_roundtrip_witness :
    getCachedCoreMantras freshCacheState 200 = (some [cacheProbeEntry], freshCacheState) ∧
    getCachedGoogleSheetsMantras freshCacheState (100 + cacheExpiry + 1) =
      (none, { freshCacheState with sheetsCache := none }) := by
  have h := c5_cache_roundtrip [cacheProbeEntry] 100 200 freshCacheState
  have h2 := c5_cache_roundtrip [cacheProbeEntry] 100 (100 + cacheExpiry + 1) freshCacheState
  exact ⟨(h.1 rfl).1 (by decide), (h2.2 rfl).2 (by omega)⟩

/-- The empty service storage state. -/
def msEmpty : MSState := {}

/-- A user-submission input (id, source and timestamp get overwritten). -/
def inputA : Mantra := { id := "", name := "Test", source := Source.core }

/-- A second user-submission input. -/
def inputB : Mantra := { id := "", name := "B", source := Source.core }

/-- A pre-existing store entry whose id collides with the id generated at
epoch-millis 1000. -/
def clashEntry : Mantra := { id := "user-1000", name := "Old", source := Source.user }

/-- A user store already containing `clashEntry`. -/
def stateWithClash : MSState :=
  { coreCache := none, sheetsCache := none, userStore := .ok [clashEntry] }

/-- C7 counterexample: with a prior entry whose id equals the freshly
generated one, add-then-delete empties the store instead of restoring it —
delete removes every entry carrying the id, so the claim quantified over
every prior store state fails. -/
theorem c7_add_delete_counterexample :
    getUserMantras (deleteUserMantra
        (addUserMantra inputA 1000 stateWithClash).1.id
        (addUserMantra inputA 1000 stateWithClash).2).2 = [] ∧
    getUserMantras stateWithClash = [clashEntry] ∧
    ([] : List Mantra) ≠ [clashEntry] := by decide

/-- `deleteUserMantra` returns true exactly when some stored entry carries
the id, and the store afterwards is the original minus every entry carrying
it (unchanged, hence equal to that filter, when nothing matched). -/
lemma deleteUserMantra_spec (id : String) (t : MSState) :
    ((deleteUserMantra id t).1 = true ↔ ∃ x ∈ getUserMantras t, x.id = id) ∧
    getUserMantras (deleteUserMantra id t).2 =
      (getUserMantras t).filter (fun x => x.id ≠ id) := by
  have hfe : (getUserMantras t).filter (fun x => x.id ≠ id) = getUserMantras t ↔
      ∀ x ∈ getUserMantras t, x.id ≠ id := by
    rw [List.filter_eq_self]
    constructor
    · intro h x hx
      simpa using h x hx
    · intro h x hx
      simpa using h x hx
  have hlen_eq : ((getUserMantras t).filter (fun x => x.id ≠ id)).length =
        (getUserMantras t).length →
      (getUserMantras t).filter (fun x => x.id ≠ id) = getUserMantras t :=
    fun h => (List.filter_sublist (getUserMantras t)).eq_of_length h
  unfold deleteUserMantra
  by_cases hlen : ((getUserMantras t).filter (fun x => x.id ≠ id)).length ≠
      (getUserMantras t).length
  · rw [if_pos hlen]
    refine ⟨?_, by simp [getUserMantras]⟩
    simp only [true_iff]
    by_contra hne
    push_neg at hne
    exact hlen (congrArg List.length (hfe.mpr (by simpa using hne)))
  · rw [if_neg hlen]
    push_neg at hlen
    have heq := hlen_eq hlen
    constructor
    · simp only [Bool.false_eq_true, false_iff]
      intro ⟨x, hx, hxid⟩
      have := hfe.mp heq x hx
      exact this hxid
    · exact heq.symm

/-- C7 amended: provided no existing entry already carries the freshly
generated id `"user-" + now`, `addUserMantra` followed by
`deleteUserMantra` of the returned id restores the store exactly; and in
general delete returns true iff an entry with the id existed, rewriting the
store to the original minus all entries with that id. -/
theorem c7_add_delete_roundtrip (m : Mantra) (now : Nat) (s : MSState)
    (hfresh : ∀ x ∈ getUserMantras s, x.id ≠ "user-" ++ jsNatRepr now) :
    getUserMantras (deleteUserMantra (addUserMantra m now s).1.id
        (addUserMantra m now s).2).2 = getUserMantras s ∧
    (∀ (id : String) (t : MSState),
      ((deleteUserMantra id t).1 = true ↔ ∃ x ∈ getUserMantras t, x.id = id) ∧
      getUserMantras (deleteUserMantra id t).2 =
        (getUserMantras t).filter (fun x => x.id ≠ id)) := by
  refine ⟨?_, fun id t => deleteUserMantra_spec id t⟩
  have hid : (addUserMantra m now s).1.id = "user-" ++ jsNatRepr now := rfl
  have hstore : getUserMantras (addUserMantra m now s).2 =
      getUserMantras s ++ [(addUserMantra m now s).1] := by
    simp [addUserMantra, getUserMantras]
  rw [(deleteUserMantra_spec _ _).2, hstore, hid]
  rw [List.filter_append]
  have h1 : (getUserMantras s).filter
      (fun x => x.id ≠ "user-" ++ jsNatRepr now) = getUserMantras s :=
    List.filter_eq_self.mpr (by intro x hx; simpa using hfresh x hx)
  have h2 : ([(addUserMantra m now s).1]).filter
      (fun x => x.id ≠ "user-" ++ jsNatRepr now) = [] := by
    simp [hid]
  rw [h1, h2, List.append_nil]

/-- Witness for C7 amended: add-then-delete on the empty store restores it,
and delete on a store holding the id returns true. -/
theorem c7_add_delete_roundtrip_witness :
    getUserMantras (deleteUserMantra (addUserMantra inputA 1000 msEmpty).1.id
        (addUserMantra inputA 1000 msEmpty).2).2 = getUserMantras msEmpty ∧
    ((deleteUserMantra "user-1000" stateWithClash).1 = true ↔
      ∃ x ∈ getUserMantras stateWithClash, x.id = "user-1000") := by
  have h := c7_add_delete_roundtrip inputA 1000 msEmpty (by decide)
  exact ⟨h.1, (h.2 "user-1000" stateWithClash).1⟩

/-- C9 counterexample: two successive `addUserMantra` calls within the same
epoch-millisecond return distinct entries carrying the same id, and the
second generated id already belongs to an entry in the catalog — the code
performs no freshness check beyond the timestamp. -/
theorem c9_id_collision_counterexample :
    (addUserMantra inputA 42 msEmpty).1.id =
      (addUserMantra inputB 42 (addUserMantra inputA 42 msEmpty).2).1.id ∧
    (addUserMantra inputA 42 msEmpty).1 ≠
      (addUserMantra inputB 42 (addUserMantra inputA 42 msEmpty).2).1 ∧
    (addUserMantra inputB 42 (addUserMantra inputA 42 msEmpty).2).1.id ∈
      (getUserMantras (addUserMantra inputA 42 msEmpty).2).map Mantra.id := by decide

/-- C9 amended: every `addUserMantra` stamps the id `"user-" + now`, and two
calls made at distinct epoch-millis values return entries with distinct ids
(uniqueness rests on the timestamp alone). -/
theorem c9_fresh_ids (m1 m2 : Mantra) (t1 t2 : Nat) (s1 s2 : MSState)
    (h : t1 ≠ t2) :
    (addUserMantra m1 t1 s1).1.id = "user-" ++ jsNatRepr t1 ∧
    (addUserMantra m1 t1 s1).1.id ≠ (addUserMantra m2 t2 s2).1.id := by
  refine ⟨rfl, fun heq => h (userId_inj heq)⟩

/-- Witness for C9 amended at epoch-millis 1 and 2. -/
theorem c9_fresh_ids_witness :
    (addUserMantra inputA 1 msEmpty).1.id = "user-" ++ jsNatRepr 1 ∧
    (addUserMantra inputA 1 msEmpty).1.id ≠ (addUserMantra inputB 2 msEmpty).1.id :=
  c9_fresh_ids inputA inputB 1 2 msEmpty msEmpty (by decide)

/-- The last element of a list extended by two elements. -/
lemma getLast?_append_pair {α : Type} (l : List α) (a b : α) :
    (l ++ [a, b]).getLast? = some b := by
  rw [show l ++ [a, b] = (l ++ [a]) ++ [b] from by simp]
  exact List.getLast?_concat _

/-- An all-success drain retains nothing. -/
lemma processQueue_all_success {deliver : QueuedRecitation → Bool}
    (h : ∀ i, deliver i = true) (q : List QueuedRecitation) :
    processQueue deliver q = [] := by
  rw [processQueue, List.filterMap_eq_nil_iff]
  intro i _
  simp [processItem, h i]

/-- An all-fail drain over items with uniform retry count strictly below the
ceiling bumps every counter by one and keeps every item in order. -/
lemma processQueue_fail_map {q : List QueuedRecitation} {r : Nat}
    (h : ∀ i ∈ q, i.retries = r) (hr : r + 1 < maxRetries) :
    processQueue (fun _ => false) q =
      q.map (fun i => { i with retries := i.retries + 1 }) := by
  induction q with
  | nil => rfl
  | cons a q ih =>
    have ha := h a (by simp)
    have hq : ∀ i ∈ q, i.retries = r := fun i hi => h i (by simp [hi])
    have hitem : processItem (fun _ => false) a =
        some { a with retries := a.retries + 1 } := by
      simp only [processItem, Bool.false_eq_true, if_false]
      rw [if_pos (by simp [ha]; omega)]
    simp only [processQueue, List.filterMap_cons, hitem, List.map_cons]
    exact congrArg _ (ih hq)

/-- An all-fail drain over items whose bumped counter reaches the ceiling
drops everything. -/
lemma processQueue_fail_drop {q : List QueuedRecitation} {r : Nat}
    (h : ∀ i ∈ q, i.retries = r) (hr : ¬ r + 1 < maxRetries) :
    processQueue (fun _ => false) q = [] := by
  rw [processQueue, List.filterMap_eq_nil_iff]
  intro i hi
  simp only [processItem, Bool.false_eq_true, if_false]
  rw [if_neg (by simp [h i hi]; omega)]

/-- Closed form of a full `syncQueue` drain on a non-empty queue with the
backend reachable: the retained set becomes the queue, and the two status
updates (flushing start, drain end) are broadcast in order. -/
lemma syncQueue_drain_eq (deliver : QueuedRecitation → Bool) (tA tE : Nat)
    (s : SQState) (hne : s.queue ≠ []) :
    syncQueue true deliver tA tE s =
      { queue := processQueue deliver s.queue
        status :=
          { pending := (processQueue deliver s.queue).length
            syncing := false
            lastSyncAttempt := some tA
            lastSuccessfulSync :=
              if (processQueue deliver s.queue).length = 0 then some tE
              else s.status.lastSuccessfulSync }
        broadcasts := s.broadcasts ++
          [{ pending := s.queue.length
             syncing := true
             lastSyncAttempt := some tA
             lastSuccessfulSync := s.status.lastSuccessfulSync },
           { pending := (processQueue deliver s.queue).length
             syncing := false
             lastSyncAttempt := some tA
             lastSuccessfulSync :=
               if (processQueue deliver s.queue).length = 0 then some tE
               else s.status.lastSuccessfulSync }] } := by
  unfold syncQueue
  rw [if_neg (by simpa using hne), if_neg (by simp)]
  simp [updateStatus]

/-- Closed form of `syncQueue` on a non-empty queue when the health probe
fails: only the attempt timestamp is recorded and broadcast. -/
lemma syncQueue_unreachable_eq (deliver : QueuedRecitation → Bool) (tA tE : Nat)
    (s : SQState) (hne : s.queue ≠ []) :
    syncQueue false deliver tA tE s =
      { queue := s.queue
        status :=
          { pending := s.queue.length
            syncing := s.status.syncing
            lastSyncAttempt := some tA
            lastSuccessfulSync := s.status.lastSuccessfulSync }
        broadcasts := s.broadcasts ++
          [{ pending := s.queue.length
             syncing := s.status.syncing
             lastSyncAttempt := some tA
             lastSuccessfulSync := s.status.lastSuccessfulSync }] } := by
  unfold syncQueue
  rw [if_neg (by simpa using hne), if_pos (by simp)]
  simp [updateStatus]

/-- C2: on a queue of freshly enqueued recitations (retry counters 0), one
flush against a reachable endpoint whose per-item delivery always fails
bumps every item's counter by exactly one and preserves the queue length;
repeating until every counter reaches `maxRetries = 5` leaves the queue
empty (all items permanently dropped).  No flush throws: `syncQueue` is a
total function on states. -/
theorem c2_failing_flush (s : SQState) (tA tE : Nat)
    (h0 : ∀ i ∈ s.queue, i.retries = 0) :
    ((syncQueue true (fun _ => false) tA tE s).queue.length = s.queue.length ∧
      ∀ i ∈ (syncQueue true (fun _ => false) tA tE s).queue, i.retries = 1) ∧
    ((fun st => syncQueue true (fun _ => false) tA tE st)^[maxRetries] s).queue = [] := by
  have hlt : ∀ (t : SQState) (r : Nat), r + 1 < maxRetries →
      (∀ i ∈ t.queue, i.retries = r) →
      (syncQueue true (fun _ => false) tA tE t).queue =
        t.queue.map (fun i => { i with retries := i.retries + 1 }) := by
    intro t r hr h
    by_cases hq : t.queue = []
    · have hid : syncQueue true (fun _ => false) tA tE t = t := by
        unfold syncQueue
        rw [if_pos (by simp [hq])]
      rw [hid, hq]
      rfl
    · rw [syncQueue_drain_eq _ tA tE t hq]
      exact processQueue_fail_map h hr
  have hstep : ∀ (t : SQState) (r : Nat), r + 1 < maxRetries →
      (∀ i ∈ t.queue, i.retries = r) →
      ∀ i ∈ (syncQueue true (fun _ => false) tA tE t).queue, i.retries = r + 1 := by
    intro t r hr h i hi
    rw [hlt t r hr h] at hi
    obtain ⟨j, hj, rfl⟩ := List.mem_map.mp hi
    simp [h j hj]
  have hdrop : ∀ (t : SQState) (r : Nat), ¬ r + 1 < maxRetries →
      (∀ i ∈ t.queue, i.retries = r) →
      (syncQueue true (fun _ => false) tA tE t).queue = [] := by
    intro t r hr h
    by_cases hq : t.queue = []
    · have hid : syncQueue true (fun _ => false) tA tE t = t := by
        unfold syncQueue
        rw [if_pos (by simp [hq])]
      rw [hid, hq]
    · rw [syncQueue_drain_eq _ tA tE t hq]
      exact processQueue_fail_drop h hr
  refine ⟨⟨?_, hstep s 0 (by norm_num [maxRetries]) h0⟩, ?_⟩
  · rw [hlt s 0 (by norm_num [maxRetries]) h0, List.length_map]
  · have h1 := hstep s 0 (by norm_num [maxRetries]) h0
    have h2 := hstep _ 1 (by norm_num [maxRetries]) h1
    have h3 := hstep _ 2 (by norm_num [maxRetries]) h2
    have h4 := hstep _ 3 (by norm_num [maxRetries]) h3
    have e : (fun st => syncQueue true (fun _ => false) tA tE st)^[maxRetries] s =
        syncQueue true (fun _ => false) tA tE
          (syncQueue true (fun _ => false) tA tE
            (syncQueue true (fun _ => false) tA tE
              (syncQueue true (fun _ => false) tA tE
                (syncQueue true (fun _ => false) tA tE s)))) := by
      simp only [maxRetries, Function.iterate_succ_apply', Function.iterate_zero_apply]
    rw [e]
    exact hdrop _ 4 (by norm_num [maxRetries]) h4

/-- C3: a flush of a non-empty queue against a reachable endpoint whose
per-item delivery always succeeds ends with an empty persisted queue,
`syncing = false`, `pending = 0` and `lastSuccessfulSync = now`; and in
general the last-success timestamp becomes now exactly when the retained
set after the drain is empty, keeping its previous value otherwise. -/
theorem c3_successful_flush (s : SQState) (deliver : QueuedRecitation → Bool)
    (tA tE : Nat) (hne : s.queue ≠ []) :
    ((∀ i, deliver i = true) →
      (syncQueue true deliver tA tE s).queue = [] ∧
      (syncQueue true deliver tA tE s).status.syncing = false ∧
      (syncQueue true deliver tA tE s).status.pending = 0 ∧
      (syncQueue true deliver tA tE s).status.lastSuccessfulSync = some tE) ∧
    (syncQueue true deliver tA tE s).status.lastSuccessfulSync =
      (if processQueue deliver s.queue = [] then some tE
       else s.status.lastSuccessfulSync) := by
  rw [syncQueue_drain_eq deliver tA tE s hne]
  constructor
  · intro hall
    have hempty := processQueue_all_success hall s.queue
    simp [hempty]
  · by_cases hq : processQueue deliver s.queue = []
    · simp [hq]
    · have hlen : (processQueue deliver s.queue).length ≠ 0 := by
        simpa [List.length_eq_zero] using hq
      simp [hq, hlen]

/-- C4: when the reachability probe fails, flushing a non-empty queue only
records the attempt timestamp: the persisted queue is exactly the previous
one (no item added, removed or retried) and the syncing flag and
last-success timestamp are unchanged. -/
theorem c4_unreachable_flush (s : SQState) (deliver : QueuedRecitation → Bool)
    (tA tE : Nat) (hne : s.queue ≠ []) :
    (syncQueue false deliver tA tE s).queue = s.queue ∧
    (syncQueue false deliver tA tE s).status.lastSyncAttempt = some tA ∧
    (syncQueue false deliver tA tE s).status.syncing = s.status.syncing ∧
    (syncQueue false deliver tA tE s).status.lastSuccessfulSync =
      s.status.lastSuccessfulSync := by
  rw [syncQueue_unreachable_eq deliver tA tE s hne]
  exact ⟨rfl, rfl, rfl, rfl⟩

/-- C10: after each queue-mutating operation — an enqueue, a flush that runs
its drain to the end, or a queue clear — the persisted status's `pending`
equals the persisted queue length, and the status value handed to
persistence is the very value broadcast (last) to the listeners. -/
theorem c10_status_invariant :
    (∀ (r : RecitationPayload) (now : Nat) (rand : String) (s : SQState),
      ((queueRecitation r now rand s).2).status.pending =
        ((queueRecitation r now rand s).2).queue.length ∧
      ((queueRecitation r now rand s).2).broadcasts.getLast? =
        some ((queueRecitation r now rand s).2).status) ∧
    (∀ (deliver : QueuedRecitation → Bool) (tA tE : Nat) (s : SQState),
      s.queue ≠ [] →
      (syncQueue true deliver tA tE s).status.pending =
        (syncQueue true deliver tA tE s).queue.length ∧
      (syncQueue true deliver tA tE s).broadcasts.getLast? =
        some (syncQueue true deliver tA tE s).status) ∧
    (∀ s : SQState,
      (clearQueue s).status.pending = (clearQueue s).queue.length ∧
      (clearQueue s).broadcasts.getLast? = some (clearQueue s).status) := by
  refine ⟨?_, ?_, ?_⟩
  · intro r now rand s
    exact ⟨rfl, List.getLast?_concat _⟩
  · intro deliver tA tE s hne
    rw [syncQueue_drain_eq deliver tA tE s hne]
    exact ⟨rfl, getLast?_append_pair _ _ _⟩
  · intro s
    exact ⟨rfl, List.getLast?_concat _⟩

/-- A sample recitation payload. -/
def recA : RecitationPayload := { mantraName := "Om", count := 10 }

/-- A freshly enqueued item (retry counter 0). -/
def queueItem : QueuedRecitation :=
  { id := "queued-1-x", recitation := recA, timestamp := 1, retries := 0 }

/-- A queue state holding one pending item. -/
def sqOne : SQState :=
  { queue := [queueItem], status := initialStatus, broadcasts := [] }

/-- The empty queue state. -/
def sqEmpty : SQState := {}

/-- Witness for C2 on a one-item queue. -/
theorem c2_failing_flush_witness :
    (syncQueue true (fun _ => false) 5 6 sqOne).queue.length = sqOne.queue.length ∧
    ((fun st => syncQueue true (fun _ => false) 5 6 st)^[maxRetries] sqOne).queue = [] := by
  have h := c2_failing_flush sqOne 5 6 (by decide)
  exact ⟨h.1.1, h.2⟩

/-- Witness for C3 on a one-item queue with an always-succeeding endpoint. -/
theorem c3_successful_flush_witness :
    (syncQueue true (fun _ => true) 5 6 sqOne).queue = [] ∧
    (syncQueue true (fun _ => true) 5 6 sqOne).status.pending = 0 ∧
    (syncQueue true (fun _ => true) 5 6 sqOne).status.lastSuccessfulSync = some 6 := by
  have h := c3_successful_flush sqOne (fun _ => true) 5 6 (by decide)
  obtain ⟨h1, h2, h3, h4⟩ := h.1 (fun i => rfl)
  exact ⟨h1, h3, h4⟩

/-- Witness for C4 on a one-item queue with the probe failing. -/
theorem c4_unreachable_flush_witness :
    (syncQueue false (fun _ => true) 5 6 sqOne).queue = sqOne.queue ∧
    (syncQueue false (fun _ => true) 5 6 sqOne).status.lastSyncAttempt = some 5 := by
  have h := c4_unreachable_flush sqOne (fun _ => true) 5 6 (by decide)
  exact ⟨h.1, h.2.1⟩

/-- Witness for C10 on concrete enqueue, flush and clear calls. -/
theorem c10_status_invariant_witness :
    ((queueRecitation recA 1 "x" sqEmpty).2).status.pending =
      ((queueRecitation recA 1 "x" sqEmpty).2).queue.length ∧
    (syncQueue true (fun _ => true) 5 6 sqOne).status.pending =
      (syncQueue true (fun _ => true) 5 6 sqOne).queue.length ∧
    (clearQueue sqOne).status.pending = (clearQueue sqOne).queue.length := by
  have h := c10_status_invariant
  exact ⟨(h.1 recA 1 "x" sqEmpty).1,
    (h.2.1 (fun _ => true) 5 6 sqOne (by decide)).1,
    (h.2.2 sqOne).1⟩

end MantraRec
